import Mathlib

/-!
Shallow embedding of `reliability_math.py`: the IEC-style component
failure-rate model library, the per-component dispatcher and the block
reliability aggregation of `calculate_block_reliability`.

Python floats are modelled as real numbers; a NaN/absent spreadsheet cell
is modelled as `none` of an `Option` type; the `errors` list and the
verbose warning prints are modelled as explicit lists of structured
values carrying the same data the Python strings carry.
-/

noncomputable section

namespace ReliabilityMath

/-! ## Mission constants (module-level constants of the source) -/

def NI : ℝ := 5256
def DT : ℝ := 3
def T_MISSION : ℝ := 43800
def PI_I : ℝ := 1
def LEOS : ℝ := 40

/-! ## Component characteristics tables (IEC pages 33-37) -/

/-- Lambda_1 constant based on component characteristics (dict `l_1`). -/
def l_1 (car : String) : ℝ :=
  if car = "MOS Standard, Digital circuits, 20000 transistors" then 2.7e-4
  else if car = "MOS Standard, Digital circuits, 810 transistors" then 2.7e-4
  else if car = "MOS Standard, Digital circuits, 2 gates" then 3.4e-6
  else if car = "BICMOS, STAM, Static Read Access Memory, 8-bit" then 6.8e-7
  else if car = "MOS Asic, Gate Arrays, 12 gates" then 2.0e-5
  else if car = "Bipolar, Linear/Digital circuit low voltage, 15 transistors" then 2.7e-4
  else if car = "BICMOS, linear/digital circuits, high voltage, 500 transistors" then 2.7e-3
  else if car = "Bipolar circuits, linear/digital circuits, high voltage, 5000 transistors" then 2.7e-2
  else if car = "BICMOS, linear/digital circuits, high voltage, 20 transistors" then 2.7e-3
  else if car = "BICMOS, linear/digital circuits, low voltage, 20 transistors" then 2.7e-4
  else 0

/-- Lambda_2 constant based on component characteristics (dict `l_2`). -/
def l_2 (car : String) : ℝ :=
  if car = "MOS Standard, Digital circuits, 20000 transistors" then 20
  else if car = "MOS Standard, Digital circuits, 810 transistors" then 20
  else if car = "MOS Standard, Digital circuits, 2 gates" then 1.7
  else if car = "BICMOS, STAM, Static Read Access Memory, 8-bit" then 8.8
  else if car = "MOS Asic, Gate Arrays, 12 gates" then 10
  else if car = "Bipolar, Linear/Digital circuit low voltage, 15 transistors" then 20
  else if car = "BICMOS, linear/digital circuits, high voltage, 500 transistors" then 20
  else if car = "Bipolar circuits, linear/digital circuits, high voltage, 5000 transistors" then 20
  else if car = "BICMOS, linear/digital circuits, high voltage, 20 transistors" then 20
  else if car = "BICMOS, linear/digital circuits, low voltage, 20 transistors" then 20
  else 0

/-- Number of transistors based on component type (dict `N`). -/
def N (car : String) : ℝ :=
  if car = "MOS Standard, Digital circuits, 20000 transistors" then 20000
  else if car = "MOS Standard, Digital circuits, 810 transistors" then 810
  else if car = "MOS Standard, Digital circuits, 2 gates" then 8
  else if car = "BICMOS, STAM, Static Read Access Memory, 8-bit" then 32
  else if car = "MOS Asic, Gate Arrays, 12 gates" then 48
  else if car = "Bipolar, Linear/Digital circuit low voltage, 15 transistors" then 15
  else if car = "BICMOS, linear/digital circuits, high voltage, 500 transistors" then 500
  else if car = "Bipolar circuits, linear/digital circuits, high voltage, 5000 transistors" then 5000
  else if car = "BICMOS, linear/digital circuits, high voltage, 20 transistors" then 20
  else if car = "BICMOS, linear/digital circuits, low voltage, 20 transistors" then 20
  else 0

/-! ## Integrated circuits (IEC 7.3) -/

/-- Cycling factor for integrated circuits. -/
def pi_n_i (n_i : ℝ) : ℝ :=
  if n_i ≤ 8760 then n_i ^ (0.76 : ℝ) else 1.7 * n_i ^ (0.6 : ℝ)

/-- The circuit types treated as bipolar by `pi_t_i`. -/
def bipolar_types : List String :=
  ["Bipolar, Linear/Digital circuit low voltage, 15 transistors",
   "Bipolar circuits, linear/digital circuits, high voltage, 5000 transistors",
   "BICMOS, linear/digital circuits, high voltage, 500 transistors",
   "BICMOS, linear/digital circuits, high voltage, 20 transistors"]

/-- Temperature factor for integrated circuits. -/
def pi_t_i (t_j : ℝ) (typ : String) : ℝ :=
  if typ ∈ bipolar_types then Real.exp (4640 * ((1/328) - (1/(273 + t_j))))
  else Real.exp (3480 * ((1/328) - (1/(273 + t_j))))

/-- Thermal expansion mismatch factor. -/
def pi_alpha (typs typc : String) : ℝ :=
  let als : ℝ := if typs = "Epoxy" then 16 else 0
  let alc : ℝ := if typc = "FR4" then 21.5 else 0
  0.06 * |als - alc| ^ (1.68 : ℝ)

/-- Die failure rate for integrated circuits. -/
def lambda_die_i (a : ℝ) (car : String) (t_j : ℝ) (typ : String) : ℝ :=
  (l_1 car * N car * Real.exp (-0.35 * (a - 1998)) + l_2 car) * pi_t_i t_j typ

/-- Package failure rate for integrated circuits (`car2` is kept though unused,
as in the source). -/
def lambda_package_i (typs typc : String) (n_i dt : ℝ) (car2 : String) (l3 : ℝ) : ℝ :=
  2.75e-3 * pi_alpha typs typc * pi_n_i n_i * dt ^ (0.68 : ℝ) * l3

/-- Total failure rate for integrated circuits; note the source passes `car`
also as the `typ` argument of the die term. -/
def lambda_int (a t_j : ℝ) (typs typc : String) (n_i dt : ℝ) (car car2 : String)
    (l3 : ℝ) : ℝ :=
  (lambda_die_i a car t_j car + lambda_package_i typs typc n_i dt car2 l3 + 40) * 1e-9

/-! ## Diodes (IEC 8.2 and 8.3) -/

/-- Cycling factor for diodes. -/
def pi_n_d (n_i : ℝ) : ℝ :=
  if n_i ≤ 8760 then n_i ^ (0.76 : ℝ) else 1.7 * n_i ^ (0.6 : ℝ)

/-- Temperature factor for diodes. -/
def pi_t_d (t_j : ℝ) : ℝ :=
  Real.exp (4640 * ((1/313) - (1/(273 + t_j))))

/-- Base failure rate for diodes (source name: the dict-backed diode base-rate
function keyed by function `car` and power class `typ`). -/
def l_0_d (car typ : String) : ℝ :=
  if car = "signal" then 0.07
  else if car = "recovery" then
    (if typ = "Power diodes (8.3)" then 0.7
     else if typ = "Low power diode (8.2)" then 0.1 else 0)
  else if car = "zener" then
    (if typ = "Power diodes (8.3)" then 0.7
     else if typ = "Low power diode (8.2)" then 0.4 else 0)
  else if car = "transient" then
    (if typ = "Power diodes (8.3)" then 0.7
     else if typ = "Low power diode (8.2)" then 2.3 else 0)
  else if car = "trigger" then
    (if typ = "Power diodes (8.3)" then 3
     else if typ = "Low power diode (8.2)" then 2 else 0)
  else if car = "gallium" then
    (if typ = "Power diodes (8.3)" then 1
     else if typ = "Low power diode (8.2)" then 0.3 else 0)
  else if car = "thyristors" then
    (if typ = "Power diodes (8.3)" then 3
     else if typ = "Low power diode (8.2)" then 1 else 0)
  else 0

/-- Die failure rate for diodes. -/
def lambda_die_d (car : String) (t_j : ℝ) (typ : String) : ℝ :=
  let pi_u : ℝ := if car = "thyristors" then 10 else 1
  pi_u * l_0_d car typ * pi_t_d t_j

/-- Package failure rate for diodes. -/
def lambda_package_d (ni dt lb : ℝ) : ℝ :=
  2.75e-3 * pi_n_d ni * dt ^ (0.68 : ℝ) * lb

/-- Electrical overstress failure rate for diodes. -/
def lambda_overstress_d (pi_i l_eos : ℝ) : ℝ := pi_i * l_eos

/-- Total failure rate for diodes. -/
def lambda_diode (car : String) (t_j n_i dt lb pi_i l_eos : ℝ) (typ : String) : ℝ :=
  (lambda_die_d car t_j typ + lambda_package_d n_i dt lb +
    lambda_overstress_d pi_i l_eos) * 1e-9

/-! ## Transistors (IEC 8.4 and 8.5) -/

/-- Cycling factor for transistors. -/
def pi_n_t (n_i : ℝ) : ℝ :=
  if n_i ≤ 8760 then n_i ^ (0.76 : ℝ) else 1.7 * n_i ^ (0.6 : ℝ)

/-- Temperature factor for transistors. -/
def pi_t_t (t_j : ℝ) (typ1 : String) : ℝ :=
  if typ1 = "Bipolar" then Real.exp (4640 * ((1/373) - (1/(t_j + 273))))
  else if typ1 = "MOS" then Real.exp (3480 * ((1/373) - (1/(t_j + 273))))
  else 0

/-- Base failure rate for transistors. -/
def l_0_trans (typ2 : String) : ℝ := if typ2 = "low" then 0.75 else 2

/-- Stress factor for transistors. -/
def pi_s_t (typ1 : String) (mce mice mds mids mgs migs : ℝ) : ℝ :=
  if typ1 = "Bipolar" then 0.22 * Real.exp (1.7 * (mce / mice))
  else if typ1 = "MOS" then
    (0.22 * Real.exp (1.7 * (mds / mids))) * (0.22 * Real.exp (3 * (mgs / migs)))
  else 0

/-- Die failure rate for transistors (source spells it `lamba_die_trans`). -/
def lamba_die_trans (t_j : ℝ) (typ1 typ2 : String)
    (mce mice mds mids mgs migs : ℝ) : ℝ :=
  pi_s_t typ1 mce mice mds mids mgs migs * l_0_trans typ2 * pi_t_t t_j typ1

/-- Package failure rate for transistors. -/
def lambda_package_trans (n_i dt lb : ℝ) : ℝ :=
  2.75e-3 * (pi_n_t n_i * dt ^ (0.68 : ℝ)) * lb

/-- Electrical overstress failure rate for transistors. -/
def lambda_overstress_trans (p_I l_eos : ℝ) : ℝ := p_I * l_eos

/-- Total failure rate for transistors. -/
def lambda_transistors (n_i t_j : ℝ) (typ1 typ2 : String)
    (dt lb p_I l_eos mce mice mds mids mgs migs : ℝ) : ℝ :=
  (lamba_die_trans t_j typ1 typ2 mce mice mds mids mgs migs +
    lambda_package_trans n_i dt lb + lambda_overstress_trans p_I l_eos) * 1e-9

/-! ## Capacitors (IEC 10.3 and 10.4) -/

/-- Temperature factor for capacitors. -/
def pi_t_c (ta : ℝ) (typ : String) : ℝ :=
  if typ = "dielectrique" then Real.exp (1160 * ((1/303) - (1/(273 + ta))))
  else if typ = "tantlum" then Real.exp (1740 * ((1/303) - (1/(273 + ta))))
  else 0

/-- Cycling factor for capacitors (no two-regime branch in the source). -/
def pi_n_c (ni : ℝ) : ℝ := ni ^ (0.76 : ℝ)

/-- Total failure rate for capacitors. -/
def lambda_capacitors (n_i ta dt : ℝ) (typ : String) : ℝ :=
  let s1 := pi_t_c ta typ
  let s2 := pi_n_c n_i * dt ^ (0.68 : ℝ)
  if typ = "dielectrique" then (0.15 * (s1 + 3.3e-3 * s2)) * 1e-9
  else if typ = "tantlum" then (0.4 * (s1 + 3.8e-3 * s2)) * 1e-9
  else 0

/-! ## Resistors (IEC 11.1) -/

/-- Temperature factor for resistors. -/
def pi_tr (t_a op rp : ℝ) : ℝ :=
  let t_r := t_a + 85 * (op / rp)
  Real.exp (1740 * ((1/303) - (1/(273 + t_r))))

/-- Cycling factor for resistors. -/
def pi_nr (n_i : ℝ) : ℝ :=
  if n_i ≤ 8760 then n_i ^ (0.76 : ℝ) else 1.7 * n_i ^ (0.6 : ℝ)

/-- Total failure rate for resistors. -/
def lambda_resistors (t_a op rp dt ni : ℝ) : ℝ :=
  (0.1 * (pi_tr t_a op rp + 1.4e-3 * pi_nr ni * dt ^ (0.68 : ℝ))) * 1e-9

/-! ## Inductors and transformers (IEC 12) -/

/-- Cycling factor for inductors/transformers. -/
def pi_n_tr (n_i : ℝ) : ℝ :=
  if n_i ≤ 8760 then n_i ^ (0.76 : ℝ) else 1.7 * n_i ^ (0.6 : ℝ)

/-- Radiating temperature. -/
def tr (ta po sur : ℝ) : ℝ := ta + 8.2 * (po / sur)

/-- Temperature factor for inductors/transformers. -/
def pi_t_tr (tr_temp : ℝ) : ℝ :=
  Real.exp (1740 * (1/303 - 1/(tr_temp + 273)))

/-- Base failure rate for inductors/transformers. -/
def l_0_i (typ1 typ2 : String) : ℝ :=
  if typ1 = "inductor" then
    (if typ2 = "low fixed" then 0.2
     else if typ2 = "low variable" then 0.4
     else if typ2 = "Power Inductor" then 0.6 else 0)
  else if typ1 = "tranformer" then
    (if typ2 = "signal" then 1.5
     else if typ2 = "power" then 3 else 0)
  else 0

/-- Total failure rate for inductors/transformers. -/
def lambda_inductors (typ1 typ2 : String) (n_i dt ta po sur : ℝ) : ℝ :=
  let s1 := pi_t_tr (tr ta po sur)
  let s2 := pi_n_tr n_i * dt ^ (0.68 : ℝ)
  (l_0_i typ1 typ2 * (s1 + 7e-3 * s2)) * 1e-9

/-! ## Primary batteries (IEC 19.1) -/

/-- Failure rate for primary batteries. -/
def lambda_primary (typ : String) : ℝ :=
  if typ = "Primary batteries (19.1)" then 20 * 1e-9 else 0

/-! ## Converters (IEC 19.6) -/

/-- Cycling factor for converters. -/
def pi_n_co (n_i : ℝ) : ℝ :=
  if n_i ≤ 8760 then n_i ^ (0.76 : ℝ) else 1.7 * n_i ^ (0.6 : ℝ)

/-- Total failure rate for converters. -/
def lambda_converters (W : String) (n_i dt : ℝ) : ℝ :=
  let l_0 : ℝ := if W = "W<10" then 100 else 130
  let s := pi_n_co n_i * dt ^ (0.68 : ℝ)
  (l_0 * (1 + 3e-3 * s)) * 1e-9

/-! ## Package lookup and reliability combinators -/

/-- Python `str.strip()`: drop leading and trailing whitespace. -/
def pystrip (s : String) : String :=
  String.mk (((s.data.dropWhile Char.isWhitespace).reverse.dropWhile
    Char.isWhitespace).reverse)

/-- Lambda_B for package types; `none` models a NaN cell (`pd.isna`). -/
def l_b (package_type : Option String) : ℝ :=
  match package_type with
  | none => 1.0
  | some s =>
    let pkg := pystrip s
    if pkg = "D2PACK, 3 pins" then 5.7
    else if pkg = "SOT-23, 3 pins" then 1.0
    else if pkg = "SOD-123, 3 pins" then 1.0
    else if pkg = "TO-220, 3 pins" then 5.7
    else if pkg = "DPACK, 6 pins" then 5.1
    else if pkg = "TO-247, 3 pins" then 6.9
    else 1.0

/-- Reliability from a failure rate. -/
def reliability_from_lambda (lambda_value t : ℝ) : ℝ :=
  Real.exp (-lambda_value * t)

/-- Reliability of components in series (running product starting at 1.0). -/
def series_reliability (R_list : List ℝ) : ℝ :=
  R_list.foldl (fun R r => R * r) 1.0

/-- Reliability of components in parallel (running product of 1-r). -/
def parallel_reliability (R_list : List ℝ) : ℝ :=
  1.0 - R_list.foldl (fun P r => P * (1 - r)) 1.0

/-! ## Spreadsheet rows and the component dispatcher

One DataFrame row of `calculate_block_reliability`; `none` models a NaN or
absent cell, mirroring the `pd.isna` checks of the source. -/

structure Row where
  Sheet : String
  Reference : String
  Class : Option String
  Transistor_type : Option String
  Temperature_Junction : Option ℝ
  Temperature_Ambiant : Option ℝ
  Table18 : Option String
  MaxRepVCE : Option ℝ
  MinSpecVCE : Option ℝ
  MaxAppVDS : Option ℝ
  MinSpecVDS : Option ℝ
  MaxAppVGS : Option ℝ
  MinSpecVGS : Option ℝ
  Operating_Power : Option ℝ
  Rated_Power : Option ℝ
  Power_loss : Option ℝ
  Radiating_surface : Option String
  Inductor_type : Option String
  diode_type : Option String
  Construction_Date : Option ℝ
  alpha_s : Option String
  alpha_c : Option String
  Table16 : Option String
  Table17a : Option String
  Lam3 : Option ℝ

/-- Structured counterpart of the strings appended to the `errors` list. -/
inductive Err where
  | missing (ref : String) (fields : List String)
  | badSurfaceFormat (ref s : String)
  | badSurfaceParse (ref s : String)
  | unknownClass (cls ref : String)
  | exc (ref msg : String)
deriving DecidableEq

/-- Structured counterpart of the verbose warning prints. -/
inductive Warn where
  | emptyBlock (sheet : String)
  | noClass (ref : String)
  | zeroExcluded (zeroCount total : ℕ)
deriving DecidableEq

/-- Message of a Python ZeroDivisionError, the only exception the embedded
arithmetic can raise. -/
def zdeMsg : String := "ZeroDivisionError: float division by zero"

/-- Python `str` applied to a cell: a NaN cell prints as "nan". -/
def pystr : Option String → String
  | some s => s
  | none => "nan"

/-- Python `pat in s` substring test. -/
def strContains (s pat : String) : Bool :=
  decide ((s.splitOn pat).length > 1)

/-- Decimal fragment of Python `float(...)`: optional sign, digits, optional
fractional part. -/
def parseFloat? (s : String) : Option ℝ :=
  let t := pystrip s
  let (sign, u) : ℝ × String :=
    if t.startsWith "-" then (-1, t.drop 1)
    else if t.startsWith "+" then (1, t.drop 1) else (1, t)
  match u.splitOn "." with
  | [a] => (a.toNat?).map (fun n => sign * (n : ℝ))
  | [a, b] =>
    match a.toNat?, b.toNat? with
    | some n, some f => some (sign * ((n : ℝ) + (f : ℝ) / (10 : ℝ) ^ b.length))
    | _, _ => none
  | _ => none

/-- Transistor branches of the dispatcher (classes 8.4 and 8.5); the Except
error is the ZeroDivisionError a zero denominator raises in Python. -/
def transistorArm (ni dt pi_i leos : ℝ) (row : Row) (typ2 : String) :
    List Err × Except String ℝ :=
  let typ1 := if strContains (pystr row.Transistor_type) "MOS" then "MOS" else "Bipolar"
  if row.Temperature_Junction.isNone then
    ([.missing row.Reference ["Temperature_Junction"]], .ok 0)
  else
    let t_j := row.Temperature_Junction.getD 0
    let lb := l_b row.Table18
    let vce_max := row.MaxRepVCE.getD 0
    let vce_min := row.MinSpecVCE.getD 1
    let vds_max := row.MaxAppVDS.getD 0
    let vds_min := row.MinSpecVDS.getD 1
    let vgs_max := row.MaxAppVGS.getD 0
    let vgs_min := row.MinSpecVGS.getD 1
    if t_j + 273 = 0 then ([], .error zdeMsg)
    else if typ1 = "Bipolar" ∧ vce_min = 0 then ([], .error zdeMsg)
    else if typ1 = "MOS" ∧ (vds_min = 0 ∨ vgs_min = 0) then ([], .error zdeMsg)
    else ([], .ok (lambda_transistors ni t_j typ1 typ2 dt lb pi_i leos
                    vce_max vce_min vds_max vds_min vgs_max vgs_min))

/-- Capacitor branches of the dispatcher (classes 10.3 and 10.4). -/
def capacitorArm (ni dt : ℝ) (row : Row) (typ : String) :
    List Err × Except String ℝ :=
  if row.Temperature_Ambiant.isNone then
    ([.missing row.Reference ["Temperature_Ambiant"]], .ok 0)
  else
    let ta := row.Temperature_Ambiant.getD 0
    if (273 : ℝ) + ta = 0 then ([], .error zdeMsg)
    else ([], .ok (lambda_capacitors ni ta dt typ))

/-- Required-field scan of the Resistor branch (insertion order of the
`required` dict). -/
def resistorMissing (row : Row) : List String :=
  (if row.Temperature_Ambiant.isNone then ["Temperature_Ambiant"] else []) ++
  (if row.Operating_Power.isNone then ["Operating_Power"] else []) ++
  (if row.Rated_Power.isNone then ["Rated_Power"] else [])

/-- Resistor branch of the dispatcher (class 11.1); a present rated power of
zero passes the NaN check and the division raises. -/
def resistorArm (ni dt : ℝ) (row : Row) : List Err × Except String ℝ :=
  let missing := resistorMissing row
  if missing ≠ [] then ([.missing row.Reference missing], .ok 0)
  else
    let ta := row.Temperature_Ambiant.getD 0
    let op := row.Operating_Power.getD 0
    let rp := row.Rated_Power.getD 0
    if rp = 0 then ([], .error zdeMsg)
    else if (273 : ℝ) + (ta + 85 * (op / rp)) = 0 then ([], .error zdeMsg)
    else ([], .ok (lambda_resistors ta op rp dt ni))

/-- Required-field scan of the Inductor branch. -/
def inductorMissing (row : Row) : List String :=
  (if row.Temperature_Ambiant.isNone then ["Temperature_Ambiant"] else []) ++
  (if row.Power_loss.isNone then ["Power loss"] else []) ++
  (if row.Radiating_surface.isNone then ["Radiating surface"] else [])

/-- The inner try/except of the inductor branch: parse a "W x H" millimeter
string into a dm² area, with data-quality errors and the 0.0132 fallback. -/
def parseSurface (ref s : String) : List Err × ℝ :=
  if strContains s "x" then
    match parseFloat? ((s.splitOn "x").getD 0 ""),
          parseFloat? ((s.splitOn "x").getD 1 "") with
    | some w, some h => ([], (w / 100) * (h / 100))
    | _, _ => ([.badSurfaceParse ref s], 0.0132)
  else ([.badSurfaceFormat ref s], 0.0132)

/-- Inductor branch of the dispatcher (class 12). -/
def inductorArm (ni dt : ℝ) (row : Row) : List Err × Except String ℝ :=
  let missing := inductorMissing row
  if missing ≠ [] then ([.missing row.Reference missing], .ok 0)
  else
    let parsed := parseSurface row.Reference (pystr row.Radiating_surface)
    let surfErrs := parsed.1
    let sur := parsed.2
    let ta := row.Temperature_Ambiant.getD 0
    let po := row.Power_loss.getD 0
    if sur = 0 then (surfErrs, .error zdeMsg)
    else if tr ta po sur + 273 = 0 then (surfErrs, .error zdeMsg)
    else (surfErrs, .ok (lambda_inductors "inductor"
          (row.Inductor_type.getD "Power Inductor") ni dt ta po sur))

/-- Required-field scan of the diode branches. -/
def diodeMissing (row : Row) : List String :=
  (if row.diode_type.isNone then ["diode_type"] else []) ++
  (if row.Temperature_Junction.isNone then ["Temperature_Junction"] else [])

/-- Diode branches of the dispatcher (classes 8.2 and 8.3). -/
def diodeArm (ni dt pi_i leos : ℝ) (row : Row) (cls : String) :
    List Err × Except String ℝ :=
  let missing := diodeMissing row
  if missing ≠ [] then ([.missing row.Reference missing], .ok 0)
  else
    let lb := l_b row.Table18
    let t_j := row.Temperature_Junction.getD 0
    if (273 : ℝ) + t_j = 0 then ([], .error zdeMsg)
    else ([], .ok (lambda_diode (row.diode_type.getD "") t_j ni dt lb pi_i leos cls))

/-- Required-field scan of the Integrated Circuit branch. -/
def icMissing (row : Row) : List String :=
  (if row.Construction_Date.isNone then ["Construction Date"] else []) ++
  (if row.Temperature_Junction.isNone then ["Temperature_Junction"] else []) ++
  (if row.alpha_s.isNone then ["alpha_s"] else []) ++
  (if row.alpha_c.isNone then ["alpha_c"] else []) ++
  (if row.Table16.isNone then ["Table 16"] else []) ++
  (if row.Table17a.isNone then ["Table 17a"] else [])

/-- Integrated Circuit branch of the dispatcher (class 7); `Lam3` is optional
with default 1.3. -/
def icArm (ni dt : ℝ) (row : Row) : List Err × Except String ℝ :=
  let missing := icMissing row
  if missing ≠ [] then ([.missing row.Reference missing], .ok 0)
  else
    let t_j := row.Temperature_Junction.getD 0
    if (273 : ℝ) + t_j = 0 then ([], .error zdeMsg)
    else ([], .ok (lambda_int (row.Construction_Date.getD 0) t_j
      (row.alpha_s.getD "") (row.alpha_c.getD "") ni dt
      (row.Table16.getD "") (row.Table17a.getD "") (row.Lam3.getD 1.3)))

/-- The class tags handled by the if/elif chain of the dispatcher. -/
def knownClasses : List String :=
  ["Low Power transistor (8.4)", "Power Transistor (8.5)",
   "Ceramic Capacitor (10.3)", "Tantlum Capacitor (10.4)",
   "Resistor (11.1)", "Inductor (12)",
   "Converter <10W (19.6)", "Converter >10W (19.6)",
   "Low power diode (8.2)", "Power diodes (8.3)",
   "Primary batteries (19.1)", "Integrated Circuit (7)"]

/-- Body of the try block: the if/elif chain over the class tag, returning
the accumulated errors and either a failure rate or a raised exception. -/
def dispatch (verbose : Bool) (ni dt pi_i leos : ℝ) (row : Row) (cls : String) :
    List Err × Except String ℝ :=
  if cls = "Low Power transistor (8.4)" then transistorArm ni dt pi_i leos row "low"
  else if cls = "Power Transistor (8.5)" then transistorArm ni dt pi_i leos row "not low"
  else if cls = "Ceramic Capacitor (10.3)" then capacitorArm ni dt row "dielectrique"
  else if cls = "Tantlum Capacitor (10.4)" then capacitorArm ni dt row "tantlum"
  else if cls = "Resistor (11.1)" then resistorArm ni dt row
  else if cls = "Inductor (12)" then inductorArm ni dt row
  else if cls = "Converter <10W (19.6)" then ([], .ok (lambda_converters "W<10" ni dt))
  else if cls = "Converter >10W (19.6)" then ([], .ok (lambda_converters "W>10" ni dt))
  else if cls ∈ ["Low power diode (8.2)", "Power diodes (8.3)"] then
    diodeArm ni dt pi_i leos row cls
  else if cls = "Primary batteries (19.1)" then ([], .ok (lambda_primary cls))
  else if cls = "Integrated Circuit (7)" then icArm ni dt row
  else (if verbose then [.unknownClass cls row.Reference] else [], .ok 0)

/-- Outcome of one iteration of the component loop: the failure rate appended
to `lambdas`, the entries appended to `errors`, and whether the row hit the
missing-Class skip (whose warning print is verbose-gated). -/
structure RowResult where
  lam : ℝ
  errs : List Err
  noClass : Bool
deriving Inhabited

/-- One iteration of the component loop of `calculate_block_reliability`:
missing-Class skip, dispatch, and the except handler that converts a raised
exception into a zero failure rate (recording it only when verbose). -/
def processRow (verbose : Bool) (ni dt pi_i leos : ℝ) (row : Row) : RowResult :=
  match row.Class with
  | none => ⟨0, [], true⟩
  | some cls =>
    if cls = "" then ⟨0, [], true⟩
    else
      match dispatch verbose ni dt pi_i leos row cls with
      | (errs, .ok lam) => ⟨lam, errs, false⟩
      | (errs, .error m) =>
        ⟨0, errs ++ (if verbose then [.exc row.Reference m] else []), false⟩

/-- One line of the returned per-component DataFrame; a `none` Reliability
models the `np.nan` placed where the failure rate is not positive. -/
structure OutRow where
  Reference : String
  Class : Option String
  Failure_rate : ℝ
  Reliability : Option ℝ
deriving Inhabited

/-- Return value of `calculate_block_reliability` together with the emitted
diagnostics: the per-component table, the block totals, the `errors` list and
the warning prints. -/
structure BlockOut where
  table : List OutRow
  lambdaTotal : ℝ
  RBlock : ℝ
  errs : List Err
  warns : List Warn

/-- The per-component result DataFrame: the block rows with the
`Failure_rate` column and the `Reliability` column (NaN when the failure
rate is not strictly positive). -/
def tableOf (t_mission : ℝ) (block : List Row) (results : List RowResult) :
    List OutRow :=
  (block.zip results).map (fun p =>
    ⟨p.1.Reference, p.1.Class, p.2.lam,
     if 0 < p.2.lam then some (Real.exp (-p.2.lam * t_mission)) else none⟩)

/-- The per-row "has no Class specified, skipping" warning prints. -/
def noClassWarnsOf (block : List Row) (results : List RowResult) : List Warn :=
  (block.zip results).filterMap
    (fun p => if p.2.noClass then some (Warn.noClass p.1.Reference) else none)

/-- The "components have lambda=0 ... being EXCLUDED" warning print, emitted
when the errors list is nonempty and some component has a zero failure
rate. -/
def zeroWarnsOf (errs : List Err) (lambdas : List ℝ) : List Warn :=
  if errs ≠ [] ∧ (lambdas.filter (fun l => l = 0)).length ≠ 0 then
    [.zeroExcluded (lambdas.filter (fun l => l = 0)).length lambdas.length]
  else []

/-- Block reliability for one sheet: filter the rows, run the component loop,
sum the strictly positive failure rates and exponentiate. -/
def calculate_block_reliability (df : List Row) (sheet : String)
    (ni dt t_mission pi_i leos : ℝ) (verbose : Bool) : BlockOut :=
  let block := df.filter (fun r => r.Sheet = sheet)
  if block.isEmpty then
    ⟨[], 0, 1, [], if verbose then [.emptyBlock sheet] else []⟩
  else
    let results := block.map (processRow verbose ni dt pi_i leos)
    let lambdas := results.map (·.lam)
    let errs := (results.map (·.errs)).flatten
    let total := (lambdas.filter (fun l => 0 < l)).sum
    ⟨tableOf t_mission block results, total, Real.exp (-total * t_mission), errs,
     (if verbose then noClassWarnsOf block results else []) ++
     (if verbose then zeroWarnsOf errs lambdas else [])⟩

/-! ## Specification-side helper predicates -/

/-- Required fields checked by the dispatcher for each class tag, in the
order the source checks them. -/
def requiredFields (cls : String) : List String :=
  if cls = "Low Power transistor (8.4)" then ["Temperature_Junction"]
  else if cls = "Power Transistor (8.5)" then ["Temperature_Junction"]
  else if cls = "Ceramic Capacitor (10.3)" then ["Temperature_Ambiant"]
  else if cls = "Tantlum Capacitor (10.4)" then ["Temperature_Ambiant"]
  else if cls = "Resistor (11.1)" then
    ["Temperature_Ambiant", "Operating_Power", "Rated_Power"]
  else if cls = "Inductor (12)" then
    ["Temperature_Ambiant", "Power loss", "Radiating surface"]
  else if cls = "Low power diode (8.2)" then ["diode_type", "Temperature_Junction"]
  else if cls = "Power diodes (8.3)" then ["diode_type", "Temperature_Junction"]
  else if cls = "Integrated Circuit (7)" then
    ["Construction Date", "Temperature_Junction", "alpha_s", "alpha_c",
     "Table 16", "Table 17a"]
  else []

/-- The named spreadsheet cell is absent/NaN on this row. -/
def fieldIsNone (row : Row) (f : String) : Prop :=
  if f = "Temperature_Junction" then row.Temperature_Junction = none
  else if f = "Temperature_Ambiant" then row.Temperature_Ambiant = none
  else if f = "Operating_Power" then row.Operating_Power = none
  else if f = "Rated_Power" then row.Rated_Power = none
  else if f = "Power loss" then row.Power_loss = none
  else if f = "Radiating surface" then row.Radiating_surface = none
  else if f = "diode_type" then row.diode_type = none
  else if f = "Construction Date" then row.Construction_Date = none
  else if f = "alpha_s" then row.alpha_s = none
  else if f = "alpha_c" then row.alpha_c = none
  else if f = "Table 16" then row.Table16 = none
  else if f = "Table 17a" then row.Table17a = none
  else False

/-- Errors whose path assigns a zero failure rate (every error except the
surface-parse data-quality warnings of the inductor branch). -/
def Err.isExclusion : Err → Bool
  | .missing _ _ => true
  | .unknownClass _ _ => true
  | .exc _ _ => true
  | _ => false

/-- The loop iteration took an exclusion path: a missing Class, a missing
required field, an unrecognized class, or a caught exception. -/
def ExcludedRow (r : RowResult) : Prop :=
  r.noClass = true ∨ ∃ e ∈ r.errs, e.isExclusion = true

/-- The IC characteristic string of the 1998 scenario. -/
def icCar : String := "MOS Standard, Digital circuits, 2 gates"

/-- Keys of the diode base-rate table. -/
def diodeFunctions : List String :=
  ["signal", "recovery", "zener", "transient", "trigger", "gallium", "thyristors"]

/-- Keys of the package table of `l_b`. -/
def packageNames : List String :=
  ["D2PACK, 3 pins", "SOT-23, 3 pins", "SOD-123, 3 pins",
   "TO-220, 3 pins", "DPACK, 6 pins", "TO-247, 3 pins"]

/-- A primary-battery row with every other cell absent. -/
def batteryRow : Row :=
  ⟨"S", "B1", some "Primary batteries (19.1)", none, none, none, none, none,
   none, none, none, none, none, none, none, none, none, none, none, none,
   none, none, none, none, none⟩

/-- A resistor row whose rated power is present but zero: the NaN check
passes and the division `op / rp` raises in Python. -/
def zeroRatedResistorRow : Row :=
  ⟨"S", "R1", some "Resistor (11.1)", none, none, some 25, none, none, none,
   none, none, none, none, some 0.1, some 0, none, none, none, none, none,
   none, none, none, none, none⟩

/-- A resistor row missing its rated power cell. -/
def missingRatedResistorRow : Row :=
  ⟨"S", "R2", some "Resistor (11.1)", none, none, some 25, none, none, none,
   none, none, none, none, some 0.1, none, none, none, none, none, none,
   none, none, none, none, none⟩

/-- A row with an unrecognized class tag. -/
def unknownClassRow : Row :=
  ⟨"S", "U1", some "Flux capacitor (88)", none, none, none, none, none, none,
   none, none, none, none, none, none, none, none, none, none, none, none,
   none, none, none, none⟩

/-- A row whose Class cell is NaN. -/
def noClassRow : Row :=
  ⟨"S", "N1", none, none, none, none, none, none, none, none, none, none,
   none, none, none, none, none, none, none, none, none, none, none, none,
   none⟩

/-! ## Theorems -/

/-- Below the boundary the cycling factor 8760^0.16 exceeds 1.7 (used to show
the two regimes really differ at the boundary). -/
theorem rpow_sixteen_hundredths_gt :
    (1.7 : ℝ) < (8760 : ℝ) ^ (0.16 : ℝ) := by
  have hb : (0 : ℝ) ≤ (8760 : ℝ) ^ (0.16 : ℝ) := Real.rpow_nonneg (by norm_num) _
  have h25 : ((1.7 : ℝ)) ^ (25 : ℕ) < ((8760 : ℝ) ^ (0.16 : ℝ)) ^ (25 : ℕ) := by
    rw [← Real.rpow_natCast ((8760 : ℝ) ^ (0.16 : ℝ)) 25,
      ← Real.rpow_mul (by norm_num)]
    have h4 : (0.16 : ℝ) * (25 : ℕ) = ((4 : ℕ) : ℝ) := by norm_num
    rw [h4, Real.rpow_natCast]
    norm_num
  exact lt_of_pow_lt_pow_left₀ 25 hb h25

/-- C1: the cycling factor is the two-regime power law n^0.76 for n ≤ 8760
and 1.7·n^0.6 above; at n = 8760 the ≤ branch applies (and gives a value
different from the other branch); and the per-class variants for ICs,
diodes, transistors, resistors, inductors/transformers and converters all
compute the identical function. -/
theorem pi_n_two_regime_shared :
    (∀ n : ℝ, n ≤ 8760 → pi_n_i n = n ^ (0.76 : ℝ)) ∧
    (∀ n : ℝ, ¬ n ≤ 8760 → pi_n_i n = 1.7 * n ^ (0.6 : ℝ)) ∧
    pi_n_i 8760 = (8760 : ℝ) ^ (0.76 : ℝ) ∧
    1.7 * (8760 : ℝ) ^ (0.6 : ℝ) < (8760 : ℝ) ^ (0.76 : ℝ) ∧
    (∀ n, pi_n_d n = pi_n_i n) ∧ (∀ n, pi_n_t n = pi_n_i n) ∧
    (∀ n, pi_nr n = pi_n_i n) ∧ (∀ n, pi_n_tr n = pi_n_i n) ∧
    (∀ n, pi_n_co n = pi_n_i n) := by
  refine ⟨fun n h => by rw [pi_n_i, if_pos h],
    fun n h => by rw [pi_n_i, if_neg h],
    by rw [pi_n_i, if_pos (by norm_num)], ?_,
    fun n => rfl, fun n => rfl, fun n => rfl, fun n => rfl, fun n => rfl⟩
  have hpos : (0 : ℝ) < (8760 : ℝ) ^ (0.6 : ℝ) :=
    Real.rpow_pos_of_pos (by norm_num) _
  have hsplit : (8760 : ℝ) ^ (0.76 : ℝ) =
      (8760 : ℝ) ^ (0.6 : ℝ) * (8760 : ℝ) ^ (0.16 : ℝ) := by
    rw [← Real.rpow_add (by norm_num)]; norm_num
  rw [hsplit]
  calc 1.7 * (8760 : ℝ) ^ (0.6 : ℝ)
      < (8760 : ℝ) ^ (0.16 : ℝ) * (8760 : ℝ) ^ (0.6 : ℝ) :=
        mul_lt_mul_of_pos_right rpow_sixteen_hundredths_gt hpos
    _ = (8760 : ℝ) ^ (0.6 : ℝ) * (8760 : ℝ) ^ (0.16 : ℝ) := by ring

/-- Witness for C1 at concrete cycle counts on both sides of and at the
boundary. -/
theorem pi_n_two_regime_shared_witness :
    pi_n_i 100 = (100 : ℝ) ^ (0.76 : ℝ) ∧
    pi_n_i 10000 = 1.7 * (10000 : ℝ) ^ (0.6 : ℝ) ∧
    pi_nr 8760 = (8760 : ℝ) ^ (0.76 : ℝ) :=
  ⟨pi_n_two_regime_shared.1 100 (by norm_num),
   pi_n_two_regime_shared.2.1 10000 (by norm_num),
   by rw [pi_n_two_regime_shared.2.2.2.2.2.2.1 8760]
      exact pi_n_two_regime_shared.2.2.1⟩

/-- C6: for the 1998 "MOS Standard, Digital circuits, 2 gates" IC at a
junction temperature where the temperature factor is 1, the die term equals
(3.4e-6·8·1 + 1.7)·1 = 1.7000272, and the total failure rate is
(die + package + 40)·1e-9 with the package term
2.75e-3·pi_alpha·pi_n(5256)·3^0.68·1.3. -/
theorem ic_scenario_1998 (t_j : ℝ) (typs typc car2 : String)
    (h : pi_t_i t_j icCar = 1) :
    lambda_die_i 1998 icCar t_j icCar = 1.7000272 ∧
    lambda_int 1998 t_j typs typc 5256 3 icCar car2 1.3 =
      (1.7000272 + 2.75e-3 * pi_alpha typs typc * pi_n_i 5256 *
        (3 : ℝ) ^ (0.68 : ℝ) * 1.3 + 40) * 1e-9 := by
  have h1 : l_1 icCar = 3.4e-6 := by simp [l_1, icCar]
  have h2 : l_2 icCar = 1.7 := by simp [l_2, icCar]
  have hN : N icCar = 8 := by simp [N, icCar]
  have hdie : lambda_die_i 1998 icCar t_j icCar = 1.7000272 := by
    rw [lambda_die_i, h, h1, h2, hN]
    norm_num [Real.exp_zero]
  exact ⟨hdie, by rw [lambda_int, hdie, lambda_package_i]⟩

/-- Witness for C6 at junction temperature 55 °C (273 + 55 = 328 K, so the
non-bipolar temperature factor is exp 0 = 1). -/
theorem ic_scenario_1998_witness :
    lambda_die_i 1998 icCar 55 icCar = 1.7000272 :=
  (ic_scenario_1998 55 "Epoxy" "FR4" "pkg"
    (by rw [pi_t_i, if_neg (by decide)]; norm_num [Real.exp_zero])).1

/-- C7: a primary-battery record gets failure rate exactly 20e-9 regardless
of every other field, and any other class tag passed to `lambda_primary`
yields 0 rather than a crash. -/
theorem primary_battery_constant :
    lambda_primary "Primary batteries (19.1)" = 20 * 1e-9 ∧
    (∀ typ : String, typ ≠ "Primary batteries (19.1)" → lambda_primary typ = 0) ∧
    (∀ (verbose : Bool) (ni dt pi_i leos : ℝ) (row : Row),
      row.Class = some "Primary batteries (19.1)" →
      (processRow verbose ni dt pi_i leos row).lam = 20 * 1e-9) := by
  refine ⟨by simp [lambda_primary],
    fun typ h => by simp [lambda_primary, h], ?_⟩
  intro verbose ni dt pi_i leos row hc
  simp [processRow, hc, dispatch, lambda_primary]

/-- Witness for C7: a wrong tag yields 0 and a concrete battery row gets
exactly 20e-9 through the dispatcher. -/
theorem primary_battery_constant_witness :
    lambda_primary "Secondary batteries" = 0 ∧
    (processRow true 5256 3 1 40 batteryRow).lam = 20 * 1e-9 :=
  ⟨primary_battery_constant.2.1 "Secondary batteries" (by decide),
   primary_battery_constant.2.2 true 5256 3 1 40 batteryRow rfl⟩

/-- C8: the series/parallel reliability combinators satisfy the n=0 and n=1
laws, the two-element product law independent of order, and series is the
plain product of the list. -/
theorem series_parallel_combinator_laws :
    series_reliability [] = 1 ∧
    (∀ R : ℝ, series_reliability [R] = R) ∧
    (∀ R1 R2 : ℝ, series_reliability [R1, R2] = R1 * R2) ∧
    (∀ R1 R2 : ℝ, series_reliability [R1, R2] = series_reliability [R2, R1]) ∧
    parallel_reliability [] = 0 ∧
    (∀ R : ℝ, parallel_reliability [R] = R) ∧
    (∀ l : List ℝ, series_reliability l = l.prod) := by
  refine ⟨by norm_num [series_reliability],
    fun R => by simp only [series_reliability, List.foldl]; ring,
    fun R1 R2 => by simp only [series_reliability, List.foldl]; ring,
    fun R1 R2 => by simp only [series_reliability, List.foldl]; ring,
    by norm_num [parallel_reliability],
    fun R => by simp only [parallel_reliability, List.foldl]; ring,
    fun l => ?_⟩
  rw [series_reliability, List.prod_eq_foldl]
  norm_num

/-- The claim that every out-of-table lookup returns the sentinel 0 fails on
`l_b`: an unknown package string yields 1.0, not 0 and not an error. -/
theorem l_b_unknown_package_not_zero :
    l_b (some "Bogus package") = 1 ∧ l_b (some "Bogus package") ≠ 0 := by
  have hs : l_b (some "Bogus package") = 1.0 := by
    simp only [l_b, show pystrip "Bogus package" = "Bogus package" from by decide]
    rw [if_neg (by decide), if_neg (by decide), if_neg (by decide),
      if_neg (by decide), if_neg (by decide), if_neg (by decide)]
  rw [hs]
  norm_num

/-- C9 (amended): out-of-table category values never raise; the diode
base-rate table and the transistor temperature factor return the sentinel 0,
while the package table `l_b` returns a neutral default of 1.0. -/
theorem lookup_totality_sentinels :
    (∀ car typ : String, car ∉ diodeFunctions → l_0_d car typ = 0) ∧
    (∀ car typ : String, car ≠ "signal" → typ ≠ "Power diodes (8.3)" →
      typ ≠ "Low power diode (8.2)" → l_0_d car typ = 0) ∧
    (∀ (t_j : ℝ) (typ1 : String), typ1 ≠ "Bipolar" → typ1 ≠ "MOS" →
      pi_t_t t_j typ1 = 0) ∧
    l_b none = 1 ∧
    (∀ s : String, pystrip s ∉ packageNames → l_b (some s) = 1) := by
  refine ⟨?_, ?_, ?_, by norm_num [l_b], ?_⟩
  · intro car typ h
    simp only [diodeFunctions, List.mem_cons, List.not_mem_nil, or_false,
      not_or] at h
    obtain ⟨h1, h2, h3, h4, h5, h6, h7⟩ := h
    simp [l_0_d, h1, h2, h3, h4, h5, h6, h7]
  · intro car typ h1 h2 h3
    simp [l_0_d, h1, h2, h3]
  · intro t_j typ1 h1 h2
    simp [pi_t_t, h1, h2]
  · intro s h
    simp only [packageNames, List.mem_cons, List.not_mem_nil, or_false,
      not_or] at h
    obtain ⟨h1, h2, h3, h4, h5, h6⟩ := h
    simp [l_b, h1, h2, h3, h4, h5, h6]
    norm_num

/-- Witness for the amended C9 at concrete out-of-table category values. -/
theorem lookup_totality_sentinels_witness :
    l_0_d "frobnicate" "Power diodes (8.3)" = 0 ∧
    pi_t_t 25 "JFET" = 0 ∧
    l_b (some " SOT-23, 3 pinz ") = 1 :=
  ⟨lookup_totality_sentinels.1 "frobnicate" "Power diodes (8.3)" (by decide),
   lookup_totality_sentinels.2.2.1 25 "JFET" (by decide) (by decide),
   lookup_totality_sentinels.2.2.2.2 " SOT-23, 3 pinz " (by decide)⟩

/-! ## Helper lemmas about the dispatcher -/

/-- Mapping a binary view over a list zipped with its own image. -/
theorem zip_map_pair {α β γ : Type} (l : List α) (f : α → β) (g : α → β → γ) :
    ((l.zip (l.map f)).map (fun p => g p.1 p.2)) = l.map (fun a => g a (f a)) := by
  induction l with
  | nil => rfl
  | cons a t ih => simp only [List.map_cons, List.zip_cons_cons, ih]

/-- The surface-parse errors of the inductor branch are data-quality
warnings, not exclusions. -/
theorem parseSurface_no_exclusion (ref s : String) :
    ∀ e ∈ (parseSurface ref s).1, e.isExclusion = false := by
  intro e he
  rw [parseSurface] at he
  split_ifs at he
  · split at he <;> simp at he <;> subst he <;> rfl
  · simp at he
    subst he
    rfl

/-- An ok-result of the transistor branch carrying an exclusion error has a
zero failure rate. -/
theorem transistorArm_ok_exclusion (ni dt pi_i leos : ℝ) (row : Row)
    (typ2 : String) {errs : List Err} {lam : ℝ}
    (h : transistorArm ni dt pi_i leos row typ2 = (errs, Except.ok lam))
    (he : ∃ e ∈ errs, e.isExclusion = true) : lam = 0 := by
  simp only [transistorArm] at h
  split_ifs at h <;>
    simp only [Prod.mk.injEq, Except.ok.injEq, reduceCtorEq, and_false,
      false_and] at h <;>
    first
      | exact h.2.symm
      | (obtain ⟨h1, h2⟩ := h; subst h1; simp at he)

/-- An ok-result of the capacitor branch carrying an exclusion error has a
zero failure rate. -/
theorem capacitorArm_ok_exclusion (ni dt : ℝ) (row : Row) (typ : String)
    {errs : List Err} {lam : ℝ}
    (h : capacitorArm ni dt row typ = (errs, Except.ok lam))
    (he : ∃ e ∈ errs, e.isExclusion = true) : lam = 0 := by
  simp only [capacitorArm] at h
  split_ifs at h <;>
    simp only [Prod.mk.injEq, Except.ok.injEq, reduceCtorEq, and_false,
      false_and] at h <;>
    first
      | exact h.2.symm
      | (obtain ⟨h1, h2⟩ := h; subst h1; simp at he)

/-- An ok-result of the resistor branch carrying an exclusion error has a
zero failure rate. -/
theorem resistorArm_ok_exclusion (ni dt : ℝ) (row : Row)
    {errs : List Err} {lam : ℝ}
    (h : resistorArm ni dt row = (errs, Except.ok lam))
    (he : ∃ e ∈ errs, e.isExclusion = true) : lam = 0 := by
  simp only [resistorArm] at h
  split_ifs at h <;>
    simp only [Prod.mk.injEq, Except.ok.injEq, reduceCtorEq, and_false,
      false_and] at h <;>
    first
      | exact h.2.symm
      | (obtain ⟨h1, h2⟩ := h; subst h1; simp at he)

/-- An ok-result of the inductor branch carrying an exclusion error has a
zero failure rate. -/
theorem inductorArm_ok_exclusion (ni dt : ℝ) (row : Row)
    {errs : List Err} {lam : ℝ}
    (h : inductorArm ni dt row = (errs, Except.ok lam))
    (he : ∃ e ∈ errs, e.isExclusion = true) : lam = 0 := by
  simp only [inductorArm] at h
  split_ifs at h <;>
    simp only [Prod.mk.injEq, Except.ok.injEq, reduceCtorEq, and_false,
      false_and] at h <;>
    first
      | exact h.2.symm
      | (obtain ⟨h1, h2⟩ := h; subst h1;
         obtain ⟨e, hmem, hex⟩ := he;
         have hf := parseSurface_no_exclusion _ _ e hmem;
         simp [hex] at hf)

/-- An ok-result of the diode branch carrying an exclusion error has a zero
failure rate. -/
theorem diodeArm_ok_exclusion (ni dt pi_i leos : ℝ) (row : Row) (cls : String)
    {errs : List Err} {lam : ℝ}
    (h : diodeArm ni dt pi_i leos row cls = (errs, Except.ok lam))
    (he : ∃ e ∈ errs, e.isExclusion = true) : lam = 0 := by
  simp only [diodeArm] at h
  split_ifs at h <;>
    simp only [Prod.mk.injEq, Except.ok.injEq, reduceCtorEq, and_false,
      false_and] at h <;>
    first
      | exact h.2.symm
      | (obtain ⟨h1, h2⟩ := h; subst h1; simp at he)

/-- An ok-result of the integrated-circuit branch carrying an exclusion
error has a zero failure rate. -/
theorem icArm_ok_exclusion (ni dt : ℝ) (row : Row)
    {errs : List Err} {lam : ℝ}
    (h : icArm ni dt row = (errs, Except.ok lam))
    (he : ∃ e ∈ errs, e.isExclusion = true) : lam = 0 := by
  simp only [icArm] at h
  split_ifs at h <;>
    simp only [Prod.mk.injEq, Except.ok.injEq, reduceCtorEq, and_false,
      false_and] at h <;>
    first
      | exact h.2.symm
      | (obtain ⟨h1, h2⟩ := h; subst h1; simp at he)

/-- An ok-result of the whole dispatch chain carrying an exclusion error has
a zero failure rate. -/
theorem dispatch_ok_exclusion (verbose : Bool) (ni dt pi_i leos : ℝ)
    (row : Row) (cls : String) {errs : List Err} {lam : ℝ}
    (h : dispatch verbose ni dt pi_i leos row cls = (errs, Except.ok lam))
    (he : ∃ e ∈ errs, e.isExclusion = true) : lam = 0 := by
  rw [dispatch] at h
  by_cases h1 : cls = "Low Power transistor (8.4)"
  · rw [if_pos h1] at h
    exact transistorArm_ok_exclusion _ _ _ _ _ _ h he
  rw [if_neg h1] at h
  by_cases h2 : cls = "Power Transistor (8.5)"
  · rw [if_pos h2] at h
    exact transistorArm_ok_exclusion _ _ _ _ _ _ h he
  rw [if_neg h2] at h
  by_cases h3 : cls = "Ceramic Capacitor (10.3)"
  · rw [if_pos h3] at h
    exact capacitorArm_ok_exclusion _ _ _ _ h he
  rw [if_neg h3] at h
  by_cases h4 : cls = "Tantlum Capacitor (10.4)"
  · rw [if_pos h4] at h
    exact capacitorArm_ok_exclusion _ _ _ _ h he
  rw [if_neg h4] at h
  by_cases h5 : cls = "Resistor (11.1)"
  · rw [if_pos h5] at h
    exact resistorArm_ok_exclusion _ _ _ h he
  rw [if_neg h5] at h
  by_cases h6 : cls = "Inductor (12)"
  · rw [if_pos h6] at h
    exact inductorArm_ok_exclusion _ _ _ h he
  rw [if_neg h6] at h
  by_cases h7 : cls = "Converter <10W (19.6)"
  · rw [if_pos h7] at h
    simp only [Prod.mk.injEq, Except.ok.injEq] at h
    obtain ⟨ha, hb⟩ := h
    subst ha
    simp at he
  rw [if_neg h7] at h
  by_cases h8 : cls = "Converter >10W (19.6)"
  · rw [if_pos h8] at h
    simp only [Prod.mk.injEq, Except.ok.injEq] at h
    obtain ⟨ha, hb⟩ := h
    subst ha
    simp at he
  rw [if_neg h8] at h
  by_cases h9 : cls ∈ ["Low power diode (8.2)", "Power diodes (8.3)"]
  · rw [if_pos h9] at h
    exact diodeArm_ok_exclusion _ _ _ _ _ _ h he
  rw [if_neg h9] at h
  by_cases h10 : cls = "Primary batteries (19.1)"
  · rw [if_pos h10] at h
    simp only [Prod.mk.injEq, Except.ok.injEq] at h
    obtain ⟨ha, hb⟩ := h
    subst ha
    simp at he
  rw [if_neg h10] at h
  by_cases h11 : cls = "Integrated Circuit (7)"
  · rw [if_pos h11] at h
    exact icArm_ok_exclusion _ _ _ h he
  rw [if_neg h11] at h
  simp only [Prod.mk.injEq, Except.ok.injEq] at h
  exact h.2.symm

/-- Reduction of `processRow` when the dispatch returns normally. -/
theorem processRow_of_dispatch_ok (verbose : Bool) (ni dt pi_i leos : ℝ)
    (row : Row) (cls : String) (hc : row.Class = some cls) (hne : cls ≠ "")
    {errs : List Err} {lam : ℝ}
    (hd : dispatch verbose ni dt pi_i leos row cls = (errs, Except.ok lam)) :
    processRow verbose ni dt pi_i leos row = ⟨lam, errs, false⟩ := by
  simp only [processRow, hc]
  rw [if_neg hne, hd]

/-- Reduction of `processRow` when the dispatch raises: the except handler
converts the exception into a zero failure rate and, when verbose, records
it in the errors list. -/
theorem processRow_of_dispatch_error (verbose : Bool) (ni dt pi_i leos : ℝ)
    (row : Row) (cls : String) (hc : row.Class = some cls) (hne : cls ≠ "")
    {errs : List Err} {m : String}
    (hd : dispatch verbose ni dt pi_i leos row cls = (errs, Except.error m)) :
    processRow verbose ni dt pi_i leos row =
      ⟨0, errs ++ (if verbose then [.exc row.Reference m] else []), false⟩ := by
  simp only [processRow, hc]
  rw [if_neg hne, hd]

/-- An excluded loop iteration always carries a zero failure rate. -/
theorem processRow_excluded_lam_zero (verbose : Bool) (ni dt pi_i leos : ℝ)
    (row : Row) {res : RowResult}
    (hres : processRow verbose ni dt pi_i leos row = res)
    (hex : ExcludedRow res) : res.lam = 0 := by
  rcases hC : row.Class with _ | cls
  · simp only [processRow, hC] at hres
    subst hres
    rfl
  · by_cases hne : cls = ""
    · simp only [processRow, hC, if_pos hne] at hres
      subst hres
      rfl
    · rcases hd : dispatch verbose ni dt pi_i leos row cls with ⟨errs, res2⟩
      rcases res2 with m | a
      · have h2 := processRow_of_dispatch_error verbose ni dt pi_i leos row cls hC hne hd
        rw [hres] at h2
        subst h2
        rfl
      · have h2 := processRow_of_dispatch_ok verbose ni dt pi_i leos row cls hC hne hd
        rw [hres] at h2
        subst h2
        rcases hex with h1 | hex2
        · simp at h1
        · exact dispatch_ok_exclusion verbose ni dt pi_i leos row cls hd hex2

/-- Reduction of the missing-Temperature branch of the transistor arm. -/
theorem transistorArm_missing (ni dt pi_i leos : ℝ) (row : Row) (typ2 : String)
    (h : row.Temperature_Junction = none) :
    transistorArm ni dt pi_i leos row typ2 =
      ([.missing row.Reference ["Temperature_Junction"]], .ok 0) := by
  simp [transistorArm, h]

/-- Reduction of the missing-Temperature branch of the capacitor arm. -/
theorem capacitorArm_missing (ni dt : ℝ) (row : Row) (typ : String)
    (h : row.Temperature_Ambiant = none) :
    capacitorArm ni dt row typ =
      ([.missing row.Reference ["Temperature_Ambiant"]], .ok 0) := by
  simp [capacitorArm, h]

/-- Reduction of the missing-fields branch of the resistor arm. -/
theorem resistorArm_missing (ni dt : ℝ) (row : Row)
    (h : resistorMissing row ≠ []) :
    resistorArm ni dt row = ([.missing row.Reference (resistorMissing row)], .ok 0) := by
  simp [resistorArm, h]

/-- Reduction of the missing-fields branch of the inductor arm. -/
theorem inductorArm_missing (ni dt : ℝ) (row : Row)
    (h : inductorMissing row ≠ []) :
    inductorArm ni dt row = ([.missing row.Reference (inductorMissing row)], .ok 0) := by
  simp [inductorArm, h]

/-- Reduction of the missing-fields branch of the diode arm. -/
theorem diodeArm_missing (ni dt pi_i leos : ℝ) (row : Row) (cls : String)
    (h : diodeMissing row ≠ []) :
    diodeArm ni dt pi_i leos row cls =
      ([.missing row.Reference (diodeMissing row)], .ok 0) := by
  simp [diodeArm, h]

/-- Reduction of the missing-fields branch of the integrated-circuit arm. -/
theorem icArm_missing (ni dt : ℝ) (row : Row)
    (h : icMissing row ≠ []) :
    icArm ni dt row = ([.missing row.Reference (icMissing row)], .ok 0) := by
  simp [icArm, h]

/-! ## Helper lemmas about the block aggregation -/

/-- Mapping a snd-projection view over a list zipped with its own image. -/
theorem zip_map_lam (l : List Row) (f : Row → RowResult) :
    ((l.zip (l.map f)).map (fun p => p.2.lam)) = (l.map f).map (fun x => x.lam) := by
  induction l with
  | nil => rfl
  | cons a t ih => simp only [List.map_cons, List.zip_cons_cons, ih]

/-- The empty-block early return of `calculate_block_reliability`. -/
theorem calc_empty (df : List Row) (sheet : String)
    (ni dt t_mission pi_i leos : ℝ) (verbose : Bool)
    (h : (df.filter (fun r => r.Sheet = sheet)).isEmpty = true) :
    calculate_block_reliability df sheet ni dt t_mission pi_i leos verbose =
      ⟨[], 0, 1, [], if verbose then [.emptyBlock sheet] else []⟩ := by
  simp only [calculate_block_reliability]
  rw [if_pos h]

/-- The nonempty-block branch of `calculate_block_reliability`, with every
field written out. -/
theorem calc_nonempty (df : List Row) (sheet : String)
    (ni dt t_mission pi_i leos : ℝ) (verbose : Bool)
    (h : (df.filter (fun r => r.Sheet = sheet)).isEmpty = false) :
    calculate_block_reliability df sheet ni dt t_mission pi_i leos verbose =
      ⟨tableOf t_mission (df.filter (fun r => r.Sheet = sheet))
        ((df.filter (fun r => r.Sheet = sheet)).map (processRow verbose ni dt pi_i leos)),
       ((((df.filter (fun r => r.Sheet = sheet)).map
          (processRow verbose ni dt pi_i leos)).map (fun x => x.lam)).filter
          (fun l => 0 < l)).sum,
       Real.exp (-((((df.filter (fun r => r.Sheet = sheet)).map
          (processRow verbose ni dt pi_i leos)).map (fun x => x.lam)).filter
          (fun l => 0 < l)).sum * t_mission),
       (((df.filter (fun r => r.Sheet = sheet)).map
          (processRow verbose ni dt pi_i leos)).map (fun x => x.errs)).flatten,
       (if verbose then
          noClassWarnsOf (df.filter (fun r => r.Sheet = sheet))
            ((df.filter (fun r => r.Sheet = sheet)).map (processRow verbose ni dt pi_i leos))
        else []) ++
       (if verbose then
          zeroWarnsOf
            ((((df.filter (fun r => r.Sheet = sheet)).map
              (processRow verbose ni dt pi_i leos)).map (fun x => x.errs)).flatten)
            (((df.filter (fun r => r.Sheet = sheet)).map
              (processRow verbose ni dt pi_i leos)).map (fun x => x.lam))
        else [])⟩ := by
  simp only [calculate_block_reliability]
  rw [if_neg (by simp [h])]

/-- The block total is always the sum of the strictly positive failure
rates of the processed rows. -/
theorem calc_lambdaTotal_filter (df : List Row) (sheet : String)
    (ni dt t_mission pi_i leos : ℝ) (verbose : Bool) :
    (calculate_block_reliability df sheet ni dt t_mission pi_i leos verbose).lambdaTotal =
      ((((df.filter (fun r => r.Sheet = sheet)).map
        (processRow verbose ni dt pi_i leos)).map (fun x => x.lam)).filter
        (fun l => 0 < l)).sum := by
  by_cases h : (df.filter (fun r => r.Sheet = sheet)).isEmpty
  · rw [calc_empty df sheet ni dt t_mission pi_i leos verbose h]
    rw [List.isEmpty_iff.mp h]
    rfl
  · rw [Bool.not_eq_true] at h
    rw [calc_nonempty df sheet ni dt t_mission pi_i leos verbose h]

/-- A row whose loop iteration produced a zero failure rate contributes
nothing: removing it from the sheet leaves the block total unchanged. -/
theorem zero_lam_no_contribution (verbose : Bool)
    (ni dt t_mission pi_i leos : ℝ) (row : Row) (pre post : List Row)
    (h0 : (processRow verbose ni dt pi_i leos row).lam = 0) :
    (calculate_block_reliability (pre ++ row :: post) row.Sheet
      ni dt t_mission pi_i leos verbose).lambdaTotal =
    (calculate_block_reliability (pre ++ post) row.Sheet
      ni dt t_mission pi_i leos verbose).lambdaTotal := by
  rw [calc_lambdaTotal_filter, calc_lambdaTotal_filter]
  rw [List.filter_append, List.filter_append,
    List.filter_cons_of_pos (by simp),
    List.map_append, List.map_append, List.map_append, List.map_append,
    List.map_cons, List.map_cons,
    List.filter_append, List.filter_append,
    List.filter_cons_of_neg (by simp [h0]), List.sum_append]

/-- C2: a record whose class requires a field that is absent/NaN is excluded
with a recorded missing-field reason naming that field, gets a zero failure
rate, and contributes nothing to the block total. -/
theorem missing_required_field_excluded (verbose : Bool) (ni dt pi_i leos : ℝ)
    (row : Row) (cls f : String) (hc : row.Class = some cls)
    (hf : f ∈ requiredFields cls) (hm : fieldIsNone row f) :
    (processRow verbose ni dt pi_i leos row).lam = 0 ∧
    (∃ fs, Err.missing row.Reference fs ∈
      (processRow verbose ni dt pi_i leos row).errs ∧ f ∈ fs) ∧
    (∀ (t_mission : ℝ) (pre post : List Row),
      (calculate_block_reliability (pre ++ row :: post) row.Sheet
        ni dt t_mission pi_i leos verbose).lambdaTotal =
      (calculate_block_reliability (pre ++ post) row.Sheet
        ni dt t_mission pi_i leos verbose).lambdaTotal) := by
  have main : (processRow verbose ni dt pi_i leos row).lam = 0 ∧
      (∃ fs, Err.missing row.Reference fs ∈
        (processRow verbose ni dt pi_i leos row).errs ∧ f ∈ fs) := by
    by_cases h1 : cls = "Low Power transistor (8.4)"
    · subst h1
      simp [requiredFields] at hf
      subst hf
      simp [fieldIsNone] at hm
      have hd : dispatch verbose ni dt pi_i leos row "Low Power transistor (8.4)" =
          ([.missing row.Reference ["Temperature_Junction"]], .ok 0) := by
        simp [dispatch, transistorArm_missing ni dt pi_i leos row "low" hm]
      rw [processRow_of_dispatch_ok verbose ni dt pi_i leos row _ hc (by decide) hd]
      exact ⟨rfl, ⟨["Temperature_Junction"], by simp, by simp⟩⟩
    by_cases h2 : cls = "Power Transistor (8.5)"
    · subst h2
      simp [requiredFields] at hf
      subst hf
      simp [fieldIsNone] at hm
      have hd : dispatch verbose ni dt pi_i leos row "Power Transistor (8.5)" =
          ([.missing row.Reference ["Temperature_Junction"]], .ok 0) := by
        simp [dispatch, transistorArm_missing ni dt pi_i leos row "not low" hm]
      rw [processRow_of_dispatch_ok verbose ni dt pi_i leos row _ hc (by decide) hd]
      exact ⟨rfl, ⟨["Temperature_Junction"], by simp, by simp⟩⟩
    by_cases h3 : cls = "Ceramic Capacitor (10.3)"
    · subst h3
      simp [requiredFields] at hf
      subst hf
      simp [fieldIsNone] at hm
      have hd : dispatch verbose ni dt pi_i leos row "Ceramic Capacitor (10.3)" =
          ([.missing row.Reference ["Temperature_Ambiant"]], .ok 0) := by
        simp [dispatch, capacitorArm_missing ni dt row "dielectrique" hm]
      rw [processRow_of_dispatch_ok verbose ni dt pi_i leos row _ hc (by decide) hd]
      exact ⟨rfl, ⟨["Temperature_Ambiant"], by simp, by simp⟩⟩
    by_cases h4 : cls = "Tantlum Capacitor (10.4)"
    · subst h4
      simp [requiredFields] at hf
      subst hf
      simp [fieldIsNone] at hm
      have hd : dispatch verbose ni dt pi_i leos row "Tantlum Capacitor (10.4)" =
          ([.missing row.Reference ["Temperature_Ambiant"]], .ok 0) := by
        simp [dispatch, capacitorArm_missing ni dt row "tantlum" hm]
      rw [processRow_of_dispatch_ok verbose ni dt pi_i leos row _ hc (by decide) hd]
      exact ⟨rfl, ⟨["Temperature_Ambiant"], by simp, by simp⟩⟩
    by_cases h5 : cls = "Resistor (11.1)"
    · subst h5
      simp [requiredFields] at hf
      have hmem : f ∈ resistorMissing row := by
        rcases hf with rfl | rfl | rfl <;> simp [fieldIsNone] at hm <;>
          simp [resistorMissing, hm]
      have hd : dispatch verbose ni dt pi_i leos row "Resistor (11.1)" =
          ([.missing row.Reference (resistorMissing row)], .ok 0) := by
        simp [dispatch, resistorArm_missing ni dt row (List.ne_nil_of_mem hmem)]
      rw [processRow_of_dispatch_ok verbose ni dt pi_i leos row _ hc (by decide) hd]
      exact ⟨rfl, ⟨resistorMissing row, by simp, hmem⟩⟩
    by_cases h6 : cls = "Inductor (12)"
    · subst h6
      simp [requiredFields] at hf
      have hmem : f ∈ inductorMissing row := by
        rcases hf with rfl | rfl | rfl <;> simp [fieldIsNone] at hm <;>
          simp [inductorMissing, hm]
      have hd : dispatch verbose ni dt pi_i leos row "Inductor (12)" =
          ([.missing row.Reference (inductorMissing row)], .ok 0) := by
        simp [dispatch, inductorArm_missing ni dt row (List.ne_nil_of_mem hmem)]
      rw [processRow_of_dispatch_ok verbose ni dt pi_i leos row _ hc (by decide) hd]
      exact ⟨rfl, ⟨inductorMissing row, by simp, hmem⟩⟩
    by_cases h7 : cls = "Low power diode (8.2)"
    · subst h7
      simp [requiredFields] at hf
      have hmem : f ∈ diodeMissing row := by
        rcases hf with rfl | rfl <;> simp [fieldIsNone] at hm <;>
          simp [diodeMissing, hm]
      have hd : dispatch verbose ni dt pi_i leos row "Low power diode (8.2)" =
          ([.missing row.Reference (diodeMissing row)], .ok 0) := by
        simp [dispatch,
          diodeArm_missing ni dt pi_i leos row _ (List.ne_nil_of_mem hmem)]
      rw [processRow_of_dispatch_ok verbose ni dt pi_i leos row _ hc (by decide) hd]
      exact ⟨rfl, ⟨diodeMissing row, by simp, hmem⟩⟩
    by_cases h8 : cls = "Power diodes (8.3)"
    · subst h8
      simp [requiredFields] at hf
      have hmem : f ∈ diodeMissing row := by
        rcases hf with rfl | rfl <;> simp [fieldIsNone] at hm <;>
          simp [diodeMissing, hm]
      have hd : dispatch verbose ni dt pi_i leos row "Power diodes (8.3)" =
          ([.missing row.Reference (diodeMissing row)], .ok 0) := by
        simp [dispatch,
          diodeArm_missing ni dt pi_i leos row _ (List.ne_nil_of_mem hmem)]
      rw [processRow_of_dispatch_ok verbose ni dt pi_i leos row _ hc (by decide) hd]
      exact ⟨rfl, ⟨diodeMissing row, by simp, hmem⟩⟩
    by_cases h9 : cls = "Integrated Circuit (7)"
    · subst h9
      simp [requiredFields] at hf
      have hmem : f ∈ icMissing row := by
        rcases hf with rfl | rfl | rfl | rfl | rfl | rfl <;>
          simp [fieldIsNone] at hm <;> simp [icMissing, hm]
      have hd : dispatch verbose ni dt pi_i leos row "Integrated Circuit (7)" =
          ([.missing row.Reference (icMissing row)], .ok 0) := by
        simp [dispatch, icArm_missing ni dt row (List.ne_nil_of_mem hmem)]
      rw [processRow_of_dispatch_ok verbose ni dt pi_i leos row _ hc (by decide) hd]
      exact ⟨rfl, ⟨icMissing row, by simp, hmem⟩⟩
    exfalso
    have hempty : requiredFields cls = [] := by
      simp [requiredFields, h1, h2, h3, h4, h5, h6, h7, h8, h9]
    rw [hempty] at hf
    simp at hf
  exact ⟨main.1, main.2,
    fun t_mission pre post =>
      zero_lam_no_contribution verbose ni dt t_mission pi_i leos row pre post main.1⟩

/-- Witness for C2: a concrete resistor row with a NaN rated power. -/
theorem missing_required_field_excluded_witness :
    (processRow true 5256 3 1 40 missingRatedResistorRow).lam = 0 ∧
    (∃ fs, Err.missing "R2" fs ∈
      (processRow true 5256 3 1 40 missingRatedResistorRow).errs ∧
      "Rated_Power" ∈ fs) ∧
    (∀ (t_mission : ℝ) (pre post : List Row),
      (calculate_block_reliability (pre ++ missingRatedResistorRow :: post) "S"
        5256 3 t_mission 1 40 true).lambdaTotal =
      (calculate_block_reliability (pre ++ post) "S"
        5256 3 t_mission 1 40 true).lambdaTotal) :=
  missing_required_field_excluded true 5256 3 1 40 missingRatedResistorRow
    "Resistor (11.1)" "Rated_Power" rfl (by decide) rfl

/-- C4: the dispatcher never raises past its boundary: an unrecognized class
is excluded with an unknown-class reason, a raised exception is caught and
recorded as an exclusion carrying the message, and every row of the sheet
still yields a table entry. -/
theorem dispatcher_never_raises (ni dt pi_i leos : ℝ) (row : Row)
    (cls : String) (hc : row.Class = some cls) (hne : cls ≠ "") :
    (cls ∉ knownClasses →
      processRow true ni dt pi_i leos row =
        ⟨0, [.unknownClass cls row.Reference], false⟩) ∧
    (∀ (errs0 : List Err) (m : String),
      dispatch true ni dt pi_i leos row cls = (errs0, Except.error m) →
      processRow true ni dt pi_i leos row =
        ⟨0, errs0 ++ [.exc row.Reference m], false⟩) ∧
    (∀ (df : List Row) (sheet : String) (t_mission : ℝ),
      (calculate_block_reliability df sheet ni dt t_mission pi_i leos
        true).table.length = (df.filter (fun r => r.Sheet = sheet)).length) := by
  refine ⟨?_, ?_, ?_⟩
  · intro hk
    simp only [knownClasses, List.mem_cons, List.not_mem_nil, or_false,
      not_or] at hk
    obtain ⟨k1, k2, k3, k4, k5, k6, k7, k8, k9, k10, k11, k12⟩ := hk
    have hd : dispatch true ni dt pi_i leos row cls =
        ([.unknownClass cls row.Reference], .ok 0) := by
      rw [dispatch, if_neg k1, if_neg k2, if_neg k3, if_neg k4, if_neg k5,
        if_neg k6, if_neg k7, if_neg k8, if_neg (by simp [k9, k10]),
        if_neg k11, if_neg k12]
      rfl
    rw [processRow_of_dispatch_ok true ni dt pi_i leos row cls hc hne hd]
  · intro errs0 m hd
    exact processRow_of_dispatch_error true ni dt pi_i leos row cls hc hne hd
  · intro df sheet t_mission
    by_cases h : (df.filter (fun r => r.Sheet = sheet)).isEmpty
    · rw [calc_empty df sheet ni dt t_mission pi_i leos true h,
        List.isEmpty_iff.mp h]
      rfl
    · rw [Bool.not_eq_true] at h
      rw [calc_nonempty df sheet ni dt t_mission pi_i leos true h]
      simp [tableOf, List.length_zip]

/-- Witness for C4: an unrecognized class row is excluded with a reason, and
a resistor row with zero rated power is caught and excluded with the raised
message. -/
theorem dispatcher_never_raises_witness :
    processRow true 5256 3 1 40 unknownClassRow =
      ⟨0, [.unknownClass "Flux capacitor (88)" "U1"], false⟩ ∧
    processRow true 5256 3 1 40 zeroRatedResistorRow =
      ⟨0, [] ++ [.exc "R1" zdeMsg], false⟩ :=
  ⟨(dispatcher_never_raises 5256 3 1 40 unknownClassRow "Flux capacitor (88)"
      rfl (by decide)).1 (by decide),
   (dispatcher_never_raises 5256 3 1 40 zeroRatedResistorRow "Resistor (11.1)"
      rfl (by decide)).2.1 [] zdeMsg
      (by simp [dispatch, resistorArm, resistorMissing, zeroRatedResistorRow])⟩

/-- C5: the code has no guard for a present-but-zero rated power: the
missing-field scan of the Resistor branch accepts it, the division then
raises a ZeroDivisionError, and the component is excluded with a generic
caught-exception reason instead of the MissingParameter report the
specification requires. -/
theorem resistor_zero_rated_power_no_guard (ni dt pi_i leos : ℝ) :
    resistorMissing zeroRatedResistorRow = [] ∧
    dispatch true ni dt pi_i leos zeroRatedResistorRow "Resistor (11.1)" =
      ([], Except.error zdeMsg) ∧
    processRow true ni dt pi_i leos zeroRatedResistorRow =
      ⟨0, [Err.exc "R1" zdeMsg], false⟩ := by
  have h1 : resistorMissing zeroRatedResistorRow = [] := by
    simp [resistorMissing, zeroRatedResistorRow]
  have h2 : dispatch true ni dt pi_i leos zeroRatedResistorRow "Resistor (11.1)" =
      ([], Except.error zdeMsg) := by
    simp [dispatch, resistorArm, resistorMissing, zeroRatedResistorRow]
  refine ⟨h1, h2, ?_⟩
  have h3 := processRow_of_dispatch_error true ni dt pi_i leos
    zeroRatedResistorRow "Resistor (11.1)" rfl (by decide) h2
  simpa using h3

/-- C3: an empty sheet returns totalFailureRate 0 and reliability 1 with an
explicit warning, and a nonempty block whose rows are all excluded returns
totalFailureRate 0 and reliability 1 with a nonempty warning report. -/
theorem degenerate_block_flagged (df : List Row) (sheet : String)
    (ni dt t_mission pi_i leos : ℝ) :
    ((df.filter (fun r => r.Sheet = sheet)).isEmpty = true →
      calculate_block_reliability df sheet ni dt t_mission pi_i leos true =
        ⟨[], 0, 1, [], [.emptyBlock sheet]⟩) ∧
    ((df.filter (fun r => r.Sheet = sheet)).isEmpty = false →
      (∀ res ∈ (df.filter (fun r => r.Sheet = sheet)).map
          (processRow true ni dt pi_i leos), ExcludedRow res) →
      (calculate_block_reliability df sheet ni dt t_mission pi_i leos
        true).lambdaTotal = 0 ∧
      (calculate_block_reliability df sheet ni dt t_mission pi_i leos
        true).RBlock = 1 ∧
      (calculate_block_reliability df sheet ni dt t_mission pi_i leos
        true).warns ≠ []) := by
  constructor
  · intro h
    rw [calc_empty df sheet ni dt t_mission pi_i leos true h]
    rw [if_pos rfl]
  · intro hne hex
    have hall : ∀ res ∈ (df.filter (fun r => r.Sheet = sheet)).map
        (processRow true ni dt pi_i leos), res.lam = 0 := by
      intro res hres
      obtain ⟨r, hr, hmap⟩ := List.mem_map.mp hres
      exact processRow_excluded_lam_zero true ni dt pi_i leos r hmap (hex res hres)
    have hfil : (((df.filter (fun r => r.Sheet = sheet)).map
        (processRow true ni dt pi_i leos)).map (fun x => x.lam)).filter
        (fun l => 0 < l) = [] := by
      rw [List.filter_eq_nil_iff]
      intro a ha
      obtain ⟨res, hres, rfl⟩ := List.mem_map.mp ha
      simp [hall res hres]
    refine ⟨?_, ?_, ?_⟩
    · rw [calc_lambdaTotal_filter, hfil]
      rfl
    · simp only [calc_nonempty df sheet ni dt t_mission pi_i leos true hne]
      rw [hfil]
      simp
    · simp only [calc_nonempty df sheet ni dt t_mission pi_i leos true hne]
      simp only [if_true]
      intro hcontra
      rw [List.append_eq_nil] at hcontra
      obtain ⟨hA, hB⟩ := hcontra
      have hbne : df.filter (fun r => r.Sheet = sheet) ≠ [] :=
        List.isEmpty_eq_false.mp hne
      obtain ⟨r0, rest, hb⟩ := List.exists_cons_of_ne_nil hbne
      have hres0mem : processRow true ni dt pi_i leos r0 ∈
          (df.filter (fun r => r.Sheet = sheet)).map
            (processRow true ni dt pi_i leos) := by
        rw [hb]
        simp
      rcases hex _ hres0mem with hnc | ⟨e, hememb, hexc⟩
      · rw [hb] at hA
        simp [noClassWarnsOf, hnc] at hA
      · have herrs : e ∈ (((df.filter (fun r => r.Sheet = sheet)).map
            (processRow true ni dt pi_i leos)).map (fun x => x.errs)).flatten :=
          List.mem_flatten.mpr
            ⟨(processRow true ni dt pi_i leos r0).errs,
             List.mem_map_of_mem _ hres0mem, hememb⟩
        have hzc : ((((df.filter (fun r => r.Sheet = sheet)).map
            (processRow true ni dt pi_i leos)).map (fun x => x.lam)).filter
            (fun l => l = 0)) ≠ [] := by
          refine List.ne_nil_of_mem (List.mem_filter.mpr
            ⟨List.mem_map_of_mem _ hres0mem, ?_⟩)
          simp [hall _ hres0mem]
        simp only [zeroWarnsOf] at hB
        rw [if_pos ⟨List.ne_nil_of_mem herrs,
          fun hlen => hzc (List.length_eq_zero.mp hlen)⟩] at hB
        simp at hB

/-- Witness for C3: the empty sheet, and a one-row block whose single row
has a NaN Class cell. -/
theorem degenerate_block_flagged_witness :
    calculate_block_reliability [] "S" 5256 3 43800 1 40 true =
      ⟨[], 0, 1, [], [.emptyBlock "S"]⟩ ∧
    ((calculate_block_reliability [noClassRow] "S" 5256 3 43800 1 40
        true).lambdaTotal = 0 ∧
     (calculate_block_reliability [noClassRow] "S" 5256 3 43800 1 40
        true).RBlock = 1 ∧
     (calculate_block_reliability [noClassRow] "S" 5256 3 43800 1 40
        true).warns ≠ []) :=
  ⟨(degenerate_block_flagged [] "S" 5256 3 43800 1 40).1 rfl,
   (degenerate_block_flagged [noClassRow] "S" 5256 3 43800 1 40).2 rfl
     (by
       intro res hres
       obtain ⟨a, ⟨ha, -⟩, h2⟩ :
          ∃ a, (a = noClassRow ∧ a.Sheet = "S") ∧
            processRow true 5256 3 1 40 a = res := by simpa using hres
       subst ha
       rw [← h2]
       left
       rfl)⟩

/-- The Failure_rate column of the result table is the list of processed
failure rates. -/
theorem tableOf_failure_rates (t : ℝ) (l : List Row) (f : Row → RowResult) :
    ((tableOf t l (l.map f)).map (fun o => o.Failure_rate)) =
      ((l.map f).map (fun x => x.lam)) := by
  induction l with
  | nil => rfl
  | cons a tl ih =>
    simp only [tableOf, List.map_cons, List.zip_cons_cons] at ih ⊢
    rw [ih]

/-- The Reliability column is determined pointwise by the Failure_rate
column. -/
theorem tableOf_reliability (t : ℝ) (l : List Row) (res : List RowResult) :
    ((tableOf t l res).map (fun o => o.Reliability)) =
      ((tableOf t l res).map (fun o =>
        if 0 < o.Failure_rate then some (Real.exp (-o.Failure_rate * t))
        else none)) := by
  simp [tableOf, List.map_map, Function.comp_def]

/-- C10: a table entry's Reliability is exp(-lambda*t) exactly when its
failure rate is strictly positive and NaN otherwise, and the block total is
the sum of the strictly positive failure rates only, so a legitimately zero
failure rate is indistinguishable from an exclusion at this interface. -/
theorem table_reliability_interface (df : List Row) (sheet : String)
    (ni dt t_mission pi_i leos : ℝ) (verbose : Bool) :
    ((calculate_block_reliability df sheet ni dt t_mission pi_i leos
      verbose).table.map (fun o => o.Reliability)) =
    ((calculate_block_reliability df sheet ni dt t_mission pi_i leos
      verbose).table.map (fun o =>
        if 0 < o.Failure_rate then some (Real.exp (-o.Failure_rate * t_mission))
        else none)) ∧
    (calculate_block_reliability df sheet ni dt t_mission pi_i leos
      verbose).lambdaTotal =
      (((calculate_block_reliability df sheet ni dt t_mission pi_i leos
        verbose).table.map (fun o => o.Failure_rate)).filter
        (fun l => 0 < l)).sum := by
  by_cases h : (df.filter (fun r => r.Sheet = sheet)).isEmpty
  · rw [calc_empty df sheet ni dt t_mission pi_i leos verbose h]
    exact ⟨rfl, rfl⟩
  · rw [Bool.not_eq_true] at h
    rw [calc_nonempty df sheet ni dt t_mission pi_i leos verbose h]
    constructor
    · exact tableOf_reliability t_mission (df.filter (fun r => r.Sheet = sheet))
        ((df.filter (fun r => r.Sheet = sheet)).map (processRow verbose ni dt pi_i leos))
    · rw [tableOf_failure_rates]

end ReliabilityMath

end
